import Mathlib

/-!
Verification development for the `webmasterpro` service (`src/main.py`).

The service is a FastAPI endpoint `/generate-wireframe` that
  1. fetches a Figma document tree,
  2. extracts FRAME/COMPONENT node ids by a recursive walk (`extract_nodes`),
  3. filters them against prompt keywords (`get_filtered_nodes`),
  4. shuffles and takes up to five (`reorder_nodes_creatively`),
  5. asks Figma for a rendered image URL of the first one (`get_figma_image`),
  6. downloads the image into a flat `static/` directory (`download_and_save_image`).

We embed the Python functions shallowly: JSON values become an inductive
`Json`, each upstream HTTP exchange becomes an environment-supplied
response, `random.shuffle` becomes an environment-supplied permutation,
`uuid.uuid4()` an environment-supplied string, the streamed download body
becomes the list of chunks `iter_content` delivers together with a flag
saying whether the stream then raises mid-download (in which case the
already-written chunks remain as a partial file), and every Python
exception path (`TypeError`/`AttributeError` on malformed JSON) becomes an
`Except PyErr` error that the source's `except` blocks turn into `None`.
-/

set_option maxHeartbeats 1000000

namespace WebmasterPro

mutual
/-- JSON values, as parsed from the request body and upstream API responses.
JSON-decoded Python dicts always have string keys, so objects are
association lists keyed by `String`. Numbers are modelled by `Int`; no code
path in `main.py` does arithmetic on them. The lists of elements and of
fields are mutually inductive with `Json` so that every function of the
model is plain structural recursion. -/
inductive Json : Type where
  | null : Json
  | bool (b : Bool) : Json
  | num (n : Int) : Json
  | str (s : String) : Json
  | arr (elems : JsonList) : Json
  | obj (fields : JsonFields) : Json

/-- A JSON array's list of elements. -/
inductive JsonList : Type where
  | nil : JsonList
  | cons (head : Json) (tail : JsonList) : JsonList

/-- A JSON object's association list of string keys and values. -/
inductive JsonFields : Type where
  | nil : JsonFields
  | cons (key : String) (val : Json) (tail : JsonFields) : JsonFields
end

/-- Build a `JsonList` from a Lean list (for readable literals). -/
def JsonList.ofList : List Json → JsonList
  | [] => .nil
  | j :: js => .cons j (ofList js)

/-- Build `JsonFields` from a Lean association list (for readable literals). -/
def JsonFields.ofList : List (String × Json) → JsonFields
  | [] => .nil
  | (k, v) :: kvs => .cons k v (ofList kvs)

/-- JSON array literal from a Lean list. -/
def Json.arrOf (l : List Json) : Json := .arr (JsonList.ofList l)

/-- JSON object literal from a Lean association list. -/
def Json.objOf (l : List (String × Json)) : Json := .obj (JsonFields.ofList l)

/-- Python dict lookup `d[k]` / membership `k in d` on a JSON object: first
matching key (JSON-decoded Python dicts have unique keys). -/
def JsonFields.lookup (k : String) : JsonFields → Option Json
  | .nil => none
  | .cons k' v rest => if k == k' then some v else lookup k rest

/-- The keys of a JSON object, in order (what `for x in d` iterates over). -/
def JsonFields.keys : JsonFields → List String
  | .nil => []
  | .cons k _ rest => k :: keys rest

/-- `List.any` on a `JsonList`. -/
def JsonList.any (p : Json → Bool) : JsonList → Bool
  | .nil => false
  | .cons j rest => p j || any p rest

/-- Python truthiness of a JSON value, as used by `if not x:` in the source. -/
def pyTruthy : Json → Bool
  | .null => false
  | .bool b => b
  | .num n => n != 0
  | .str s => !s.isEmpty
  | .arr .nil => false
  | .arr (.cons _ _) => true
  | .obj .nil => false
  | .obj (.cons _ _ _) => true

/-- Python `==` between a JSON value and a string literal: only a string
with the same characters compares equal (booleans and numbers never equal a
string in Python). -/
def Json.eqStr : Json → String → Bool
  | .str t, s => t == s
  | _, _ => false

/-- Whether a JSON value is a string. -/
def Json.isStr : Json → Bool
  | .str _ => true
  | _ => false

/-- Whether the pattern is a leading segment of the text (helper for the
Python substring test). -/
def charsMatchAt : List Char → List Char → Bool
  | [], _ => true
  | _ :: _, [] => false
  | p :: ps, t :: ts => p == t && charsMatchAt ps ts

/-- Whether the pattern occurs contiguously somewhere in the text. -/
def subSearch (pat : List Char) : List Char → Bool
  | [] => charsMatchAt pat []
  | t :: ts => charsMatchAt pat (t :: ts) || subSearch pat ts

/-- Python substring test `sub in s` on strings. -/
def strContains (s sub : String) : Bool :=
  subSearch sub.toList s.toList

/-- Whether `t` is a leading segment of `s` (for `os.path.join`'s
absolute-path test and for stating facts about filenames). -/
def strStartsWith (s t : String) : Bool :=
  charsMatchAt t.toList s.toList

/-- Whether `t` is a trailing segment of `s`. -/
def strEndsWith (s t : String) : Bool :=
  charsMatchAt t.toList.reverse s.toList.reverse

/-- Python `str.lower` on one character, for the ASCII range the keyword
comparison of `get_filtered_nodes` exercises. -/
def charLower (c : Char) : Char :=
  ((("ABCDEFGHIJKLMNOPQRSTUVWXYZ".toList).zip
    ("abcdefghijklmnopqrstuvwxyz".toList)).lookup c).getD c

/-- Python `str.lower`. -/
def strToLower (s : String) : String :=
  String.mk (s.toList.map charLower)

/-- A raised Python exception (`TypeError` / `AttributeError`); the `except`
blocks in the source only need the fact that one was raised. -/
abbrev PyErr := Unit

/-- The first if-statement of `extract_nodes` (main.py lines 106-107):
`"id" in node and node.get("type") in ["FRAME", "COMPONENT"] and
node.get("id") != "0:0"`, then append
`(node["id"], node.get("absoluteBoundingBox", {}).get("width", 0))`.
The width lookup raises `AttributeError` when `absoluteBoundingBox` is
present but not a dict. -/
def extract_self (fields : JsonFields) : Except PyErr (List (Json × Json)) :=
  match fields.lookup "id" with
  | none => .ok []
  | some idv =>
    let tyv := (fields.lookup "type").getD .null
    if (tyv.eqStr "FRAME" || tyv.eqStr "COMPONENT") && !(idv.eqStr "0:0") then
      match (fields.lookup "absoluteBoundingBox").getD (.obj .nil) with
      | .obj bb => .ok [(idv, (bb.lookup "width").getD (.num 0))]
      | _ => .error ()
    else .ok []

/-- `extract_nodes` applied to a string node: `"id" in s` is a substring
test; when it holds, `s.get(...)` raises `AttributeError`; otherwise a
`"children" in s` hit followed by `s["children"]` raises `TypeError`. -/
def extract_on_str (s : String) : Except PyErr (List (Json × Json)) :=
  if strContains s "id" then .error ()
  else if strContains s "children" then .error ()
  else .ok []

/-- `extract_nodes` applied to a list node: `"id" in node` is list
membership (Python `==` against each element); a hit leads to `.get` on a
list (`AttributeError`), a `"children"` hit to `node["children"]` with a
string index (`TypeError`); otherwise nothing is collected and there is no
recursion into the elements. -/
def extract_on_arr (l : JsonList) : Except PyErr (List (Json × Json)) :=
  if l.any (·.eqStr "id") then .error ()
  else if l.any (·.eqStr "children") then .error ()
  else .ok []

/-- Iterating `extract_nodes` over string children (the keys of a dict
`children` value, or the single-character strings of a string value). -/
def extract_str_iter : List String → Except PyErr (List (Json × Json))
  | [] => .ok []
  | k :: ks => do
    let a ← extract_on_str k
    let b ← extract_str_iter ks
    pure (a ++ b)

mutual
/-- The recursive collector `extract_nodes` of `get_filtered_nodes`
(main.py lines 104-111), with the shared `nodes` accumulator made explicit
in the result: the node's own `(id, width)` pair (when the type filter
matches) followed by the pairs collected from its children, depth-first and
in document order. Non-dict nodes either raise or collect nothing, exactly
as the Python `in`/`.get`/`[]` operators do. -/
def extract_nodes : Json → Except PyErr (List (Json × Json))
  | .obj fields => do
    let self ← extract_self fields
    let rest ← extract_find_children fields
    pure (self ++ rest)
  | .str s => extract_on_str s
  | .arr l => extract_on_arr l
  | _ => .error ()

/-- `"children" in node` followed by `node["children"]` on a dict node:
scan the fields for the first `children` key (Python dicts: the only one)
and iterate over its value; no `children` key collects nothing more. -/
def extract_find_children : JsonFields → Except PyErr (List (Json × Json))
  | .nil => .ok []
  | .cons k v rest =>
    if k == "children" then extract_children_value v
    else extract_find_children rest

/-- `for child in node["children"]: extract_nodes(child)`: a JSON array
iterates its elements, a dict iterates its keys (strings), a string its
characters (single-character strings); iterating any other value raises
`TypeError`. -/
def extract_children_value : Json → Except PyErr (List (Json × Json))
  | .arr cs => extract_list cs
  | .obj kvs => extract_str_iter kvs.keys
  | .str s => extract_str_iter (s.toList.map (fun c => String.singleton c))
  | _ => .error ()

/-- Fold `extract_nodes` over the children array, in order, propagating the
first raised exception. -/
def extract_list : JsonList → Except PyErr (List (Json × Json))
  | .nil => .ok []
  | .cons c cs => do
    let a ← extract_nodes c
    let b ← extract_list cs
    pure (a ++ b)
end

/-- The HTTP response delivered for one upstream GET (`requests.get`):
its status code and its body as parsed by `response.json()`. -/
structure HttpResp : Type where
  status : Nat
  body : Json

/-- One outbound call of the service, by kind. `fetchStyles` is the
style-list fetch named by the specification's interface list; no code under
`src/` performs it, the constructor exists so that its absence from a
request's trace can be stated. -/
inductive ApiCall : Type where
  | fetchFile (fileId : Json)
  | fetchStyles (fileId : Json)
  | fetchImageUrl (fileId : Json) (nodeId : Json)
  | fetchImageBytes (url : Json)

/-- The keyword list of `get_filtered_nodes` (main.py line 120). -/
def KEYWORDS : List String := ["header", "footer", "button", "card"]

/-- The hard-coded default Figma file key (main.py line 35). -/
def FIGMA_FILE_KEY : String := "WnXRJb9D39JEVUir53ShUy"

/-- `get_filtered_nodes` (main.py lines 93-130), given the response the
files API delivers for its one GET. Returns the node-id list (`None` is
`none`: non-200 status, or any exception caught by the function's
`except` block — malformed JSON, a failing width lookup, or a non-string
prompt reaching `.lower()`) together with the outbound calls made. -/
def get_filtered_nodes (file_id : Json) (resp : HttpResp) (prompt : Json) :
    Option (List Json) × List ApiCall :=
  let node_id_list : Option (List Json) :=
    if resp.status != 200 then none
    else
      match resp.body with
      | .obj dataFields =>
        match extract_nodes ((dataFields.lookup "document").getD (.obj .nil)) with
        | .error _ => none
        | .ok nodes =>
          if nodes.isEmpty then none
          else
            match prompt with
            | .str p =>
              let kw := KEYWORDS.any (fun word => strContains (strToLower p) (strToLower word))
              let filtered_nodes := (nodes.filter (fun _ => kw)).map Prod.fst
              some (if filtered_nodes.isEmpty then nodes.map Prod.fst else filtered_nodes)
            | _ => none
      | _ => none
  (node_id_list, [ApiCall.fetchFile file_id])

/-- `reorder_nodes_creatively` (main.py lines 133-136): `random.shuffle`
permutes the list in place (the permutation actually drawn is the
`shuffle` argument), then the first up-to-five elements are returned. -/
def reorder_nodes_creatively (shuffle : List Json → List Json)
    (node_list : List Json) : List Json :=
  (shuffle node_list).take 5

/-- `get_figma_image` (main.py lines 139-162), given the response the
images API delivers. `response.json().get("images", {}).get(node_id, "")`
only finds a URL under a string node id (JSON-decoded dicts have string
keys; an unhashable id raises and the `except` block also returns `None`),
and a falsy URL becomes `None`. -/
def get_figma_image (file_id : Json) (resp : HttpResp) (node_id : Json) :
    Option Json × List ApiCall :=
  let result : Option Json :=
    if resp.status == 200 then
      match resp.body with
      | .obj respFields =>
        match (respFields.lookup "images").getD (.obj .nil) with
        | .obj images =>
          let img_url : Json :=
            match node_id with
            | .str s => (images.lookup s).getD (.str "")
            | _ => .str ""
          if pyTruthy img_url then some img_url else none
        | _ => none
      | _ => none
    else none
  (result, [ApiCall.fetchImageUrl file_id node_id])

/-- The static directory (main.py line 27). -/
def STATIC_DIR : String := "static"

/-- `os.path.join` for the one two-argument POSIX use in the source. -/
def osPathJoin (a b : String) : String :=
  if strStartsWith b "/" then b
  else if a.isEmpty then b
  else if strEndsWith a "/" then a ++ b
  else a ++ "/" ++ b

/-- The outbound call `download_and_save_image` makes: `requests.get` on a
string URL fetches the image bytes; on a non-string URL it raises before
any network operation. -/
def download_calls (image_url : Json) : List ApiCall :=
  if image_url.isStr then [ApiCall.fetchImageBytes image_url] else []

/-- `download_and_save_image` (main.py lines 165-184), given the download
status, the chunks `iter_content` delivers before completing or raising,
whether the stream raises mid-download after those chunks, and the
`uuid.uuid4()` value drawn. Returns the saved filename (or `None`), the
files written (path, bytes), and the outbound calls made. On a 200
response the file is opened and the delivered chunks are written before
any mid-stream exception is caught by the `except` block: the function
then returns `None` but the partial file remains under `static/`. The
raising `requests.get` on a non-string URL and the non-200 status are
caught as `None` with nothing written (no `open` happens). -/
def download_and_save_image (dstatus : Nat) (chunks : List String)
    (raisesMidStream : Bool) (uuid4 : String) (image_url : Json) :
    Option String × List (String × String) × List ApiCall :=
  match image_url with
  | .str _ =>
    if dstatus == 200 then
      let filename := uuid4 ++ ".png"
      let filepath := osPathJoin STATIC_DIR filename
      if raisesMidStream then
        (none, [(filepath, String.join chunks)], download_calls image_url)
      else
        (some filename, [(filepath, String.join chunks)], download_calls image_url)
    else (none, [], download_calls image_url)
  | _ => (none, [], download_calls image_url)

/-- Everything one request's run of `generate_wireframe` can observe:
the parsed request body (`none` when `await request.json()` raised), the
two upstream API responses, the download status, the chunks the streamed
download body delivers and whether it raises mid-stream after them, the
`uuid.uuid4()` value drawn, and the permutation `random.shuffle` draws. -/
structure Env : Type where
  body : Option Json
  filesResp : HttpResp
  imageResp : HttpResp
  downloadStatus : Nat
  downloadChunks : List String
  downloadRaises : Bool
  uuid4 : String
  shuffle : List Json → List Json

/-- What the endpoint hands back to FastAPI: a `WireframeResponse`
(`info`, `download_url`) or a raised `HTTPException` (status, detail). -/
inductive RunResult : Type where
  | success (info : String) (download_url : String)
  | httpError (status : Nat) (detail : String)
deriving DecidableEq

/-- The prompt value `data.get("prompt")` the endpoint reads (null when the
body is not a dict; that run raises before using it). -/
def requestPrompt (env : Env) : Json :=
  match env.body with
  | some (.obj dataFields) => (dataFields.lookup "prompt").getD .null
  | _ => .null

/-- The file id `data.get("file_id", FIGMA_FILE_KEY)` the endpoint uses. -/
def requestFileId (env : Env) : Json :=
  match env.body with
  | some (.obj dataFields) => (dataFields.lookup "file_id").getD (.str FIGMA_FILE_KEY)
  | _ => .str FIGMA_FILE_KEY

/-- The endpoint `generate_wireframe` (main.py lines 51-90): the result
returned to the client, the outbound calls made (in order), and the files
written under `static/`. `HTTPException`s raised in the `try` block are
re-raised unchanged by `except HTTPException`; any other exception becomes
a 500 `Error interno del servidor`. -/
def generate_wireframe (env : Env) :
    RunResult × List ApiCall × List (String × String) :=
  match env.body with
  | none => (.httpError 500 "Error interno del servidor", [], [])
  | some data =>
    match data with
    | .obj _ =>
      let prompt := requestPrompt env
      let file_id := requestFileId env
      if !(pyTruthy prompt) then (.httpError 400 "Prompt no recibido", [], [])
      else
        let filteredPair := get_filtered_nodes file_id env.filesResp prompt
        let calls1 := filteredPair.2
        match filteredPair.1 with
        | none => (.httpError 400 "No se encontraron nodos válidos en Figma", calls1, [])
        | some node_id_list =>
          if node_id_list.isEmpty then
            (.httpError 400 "No se encontraron nodos válidos en Figma", calls1, [])
          else
            let ordered_nodes := reorder_nodes_creatively env.shuffle node_id_list
            match ordered_nodes.head? with
            | none => (.httpError 500 "Error interno del servidor", calls1, [])
            | some nid =>
              let imagePair := get_figma_image file_id env.imageResp nid
              let calls2 := imagePair.2
              match imagePair.1 with
              | none =>
                (.httpError 500 "No se pudo obtener la imagen del wireframe",
                  calls1 ++ calls2, [])
              | some wireframe_url =>
                if !(pyTruthy wireframe_url) then
                  (.httpError 500 "No se pudo obtener la imagen del wireframe",
                    calls1 ++ calls2, [])
                else
                  let savedTriple := download_and_save_image env.downloadStatus
                    env.downloadChunks env.downloadRaises env.uuid4 wireframe_url
                  let writes := savedTriple.2.1
                  let calls3 := savedTriple.2.2
                  match savedTriple.1 with
                  | none =>
                    (.httpError 500 "Error al guardar la imagen",
                      calls1 ++ calls2 ++ calls3, writes)
                  | some local_filename =>
                    if local_filename.isEmpty then
                      (.httpError 500 "Error al guardar la imagen",
                        calls1 ++ calls2 ++ calls3, writes)
                    else
                      (.success "Wireframe generado exitosamente"
                        ("https://webmasterpro.onrender.com/static/" ++ local_filename),
                        calls1 ++ calls2 ++ calls3, writes)
    | _ => (.httpError 500 "Error interno del servidor", [], [])

/-- A document tree with one FRAME node `1:2` of width 320 under the
root. -/
def okDocument : Json :=
  Json.objOf [("id", .str "0:0"), ("type", .str "DOCUMENT"),
    ("children", Json.arrOf [Json.objOf [("id", .str "1:2"), ("type", .str "FRAME"),
      ("absoluteBoundingBox", Json.objOf [("width", .num 320)])]])]

/-- A 200 files response serving `okDocument`. -/
def okFilesResp : HttpResp :=
  { status := 200, body := Json.objOf [("document", okDocument)] }

/-- A 200 images response with a render URL for node `1:2`. -/
def okImageResp : HttpResp :=
  { status := 200
    body := Json.objOf [("images",
      Json.objOf [("1:2", .str "https://figma-render.example/1-2.png")])] }

/-- A concrete environment whose request succeeds end to end: one FRAME
node `1:2` in the document, an image URL for it, a 200 download. -/
def envOk : Env where
  body := some (Json.objOf [("prompt", .str "landing page")])
  filesResp := okFilesResp
  imageResp := okImageResp
  downloadStatus := 200
  downloadChunks := ["PNGBYTES"]
  downloadRaises := false
  uuid4 := "123e4567-e89b-12d3-a456-426614174000"
  shuffle := fun l => l

mutual
/-- A well-formed document tree as the specification describes it: a node
with an optional identifier, an optional type, an optional bounding-box
width, and a list of child nodes. -/
inductive DocTree : Type where
  | node (id : Option String) (ty : Option String) (width : Option Int)
      (children : DocForest) : DocTree

/-- A list of sibling document nodes, in document order. -/
inductive DocForest : Type where
  | nil : DocForest
  | cons (t : DocTree) (rest : DocForest) : DocForest
end

/-- An optional field of a JSON object literal. -/
def optEntry (k : String) (v : Option Json) : List (String × Json) :=
  match v with
  | some j => [(k, j)]
  | none => []

/-- The field list of the JSON object encoding one document node. -/
def docFields (id ty : Option String) (w : Option Int) (children : JsonList) :
    JsonFields :=
  JsonFields.ofList
    (optEntry "id" (id.map .str) ++
     optEntry "type" (ty.map .str) ++
     optEntry "absoluteBoundingBox"
       (w.map fun x => Json.objOf [("width", .num x)]) ++
     [("children", .arr children)])

mutual
/-- The JSON value the files API would serve for a document node: its
optional `id`, `type` and `absoluteBoundingBox.width` fields and its
`children` array. -/
def DocTree.toJson : DocTree → Json
  | .node id ty w cs => .obj (docFields id ty w cs.toJsonList)

/-- The JSON array of a forest's nodes. -/
def DocForest.toJsonList : DocForest → JsonList
  | .nil => .nil
  | .cons t ts => .cons t.toJson ts.toJsonList
end

/-- What one node contributes to the collection, per the specification:
its identifier when its type is FRAME or COMPONENT and its id is not
`0:0`, paired with its bounding-box width (`0` when absent). -/
def headPairs (id ty : Option String) (w : Option Int) : List (String × Int) :=
  match id, ty with
  | some i, some t =>
    if ((t == "FRAME") || (t == "COMPONENT")) && !(i == "0:0") then
      [(i, w.getD 0)]
    else []
  | _, _ => []

mutual
/-- The node selection as the specification words it: a recursive
depth-first traversal, each node visited before its children and children
in document order, collecting exactly the identifiers of nodes whose type
is FRAME or COMPONENT, excluding id `0:0`, each paired with its
bounding-box width, defaulting to `0` when absent. -/
def DocTree.collect : DocTree → List (String × Int)
  | .node id ty w cs => headPairs id ty w ++ cs.collectF

/-- Depth-first collection over a forest, in document order. -/
def DocForest.collectF : DocForest → List (String × Int)
  | .nil => []
  | .cons t ts => t.collect ++ ts.collectF
end

/-- The injection of spec-level collected pairs into the model's JSON
pairs. -/
def pairToJson (p : String × Int) : Json × Json := (.str p.1, .num p.2)

/-- The node-id list `get_filtered_nodes` produces, as a function of the
files-API response alone: all extracted ids, or `None`. The per-node filter
condition of the source does not mention the node, so the keyword filter
either keeps every node or (through the fallback) every node again; this
definition is what `get_filtered_nodes` is proved equal to for every
string prompt. -/
def filtered_ids (resp : HttpResp) : Option (List Json) :=
  if resp.status != 200 then none
  else
    match resp.body with
    | .obj dataFields =>
      match extract_nodes ((dataFields.lookup "document").getD (.obj .nil)) with
      | .error _ => none
      | .ok nodes => if nodes.isEmpty then none else some (nodes.map Prod.fst)
    | _ => none

/-- The kind of an outbound call, forgetting its arguments (for stating
that no call kind is repeated within a request). -/
def ApiCall.kind : ApiCall → Nat
  | .fetchFile _ => 0
  | .fetchStyles _ => 1
  | .fetchImageUrl _ _ => 2
  | .fetchImageBytes _ => 3

/-- A request body with no prompt field at all. -/
def envNoPrompt : Env := { envOk with body := some (Json.objOf []) }

/-- A request body whose prompt field is the empty string. -/
def envEmptyPrompt : Env :=
  { envOk with body := some (Json.objOf [("prompt", .str "")]) }

/-- An environment whose files fetch comes back 500: the first pipeline
step fails. -/
def envFilesDown : Env :=
  { envOk with filesResp := { status := 500, body := .obj .nil } }

/-- An environment whose files fetch succeeds but whose document tree
holds no FRAME or COMPONENT node. -/
def envNoNodes : Env :=
  { envOk with
      filesResp :=
        { status := 200
          body := Json.objOf [("document",
            Json.objOf [("id", .str "0:0"), ("type", .str "DOCUMENT")])] } }

/-- An environment whose images call returns no URL for the node. -/
def envNoImage : Env :=
  { envOk with imageResp := { status := 200, body := Json.objOf [("images", .obj .nil)] } }

/-- An environment whose image download comes back 404. -/
def envDownloadDown : Env := { envOk with downloadStatus := 404 }

/-- An environment whose image download comes back 200 but whose streamed
body raises after one chunk was already written: the request fails with
500 while a partial file remains under `static/`. -/
def envPartialDownload : Env := { envOk with downloadRaises := true }

/-- A files response whose document tree has one FRAME node whose id is
the empty string. -/
def emptyIdFilesResp : HttpResp :=
  { status := 200
    body := Json.objOf [("document",
      Json.objOf [("id", .str ""), ("type", .str "FRAME")])] }

/-!
Theorems. First the sanity evaluation of the model on the concrete
environments, then per-claim results.
-/

example :
    extract_nodes (Json.objOf [("id", .str "1:2"), ("type", .str "FRAME")]) =
      .ok [(.str "1:2", .num 0)] := by rfl

example :
    generate_wireframe envOk =
      (.success "Wireframe generado exitosamente"
        "https://webmasterpro.onrender.com/static/123e4567-e89b-12d3-a456-426614174000.png",
       [.fetchFile (.str FIGMA_FILE_KEY),
        .fetchImageUrl (.str FIGMA_FILE_KEY) (.str "1:2"),
        .fetchImageBytes (.str "https://figma-render.example/1-2.png")],
       [("static/123e4567-e89b-12d3-a456-426614174000.png", "PNGBYTES")]) := by rfl

/-- On the encoding of a document node, the first if-statement of
`extract_nodes` collects exactly what the specification's description
says the node contributes. -/
theorem extract_self_docFields (id ty : Option String) (w : Option Int)
    (children : JsonList) :
    extract_self (docFields id ty w children) =
      .ok ((headPairs id ty w).map pairToJson) := by
  cases id <;> cases ty <;> cases w <;>
    simp [extract_self, docFields, optEntry, JsonFields.ofList, JsonFields.lookup,
      Json.eqStr, headPairs, pairToJson, Json.objOf, apply_ite]

/-- On the encoding of a document node, the children scan of
`extract_nodes` finds exactly the encoded children array. -/
theorem extract_find_children_docFields (id ty : Option String) (w : Option Int)
    (children : JsonList) :
    extract_find_children (docFields id ty w children) = extract_list children := by
  cases id <;> cases ty <;> cases w <;>
    simp [extract_find_children, docFields, optEntry, JsonFields.ofList,
      extract_children_value]

mutual
/-- `extract_nodes` on the JSON encoding of a well-formed document tree
collects exactly the pairs the specification's depth-first description
collects, in the same order. -/
theorem extract_nodes_toJson (t : DocTree) :
    extract_nodes t.toJson = .ok (t.collect.map pairToJson) := by
  match t with
  | .node id ty w cs =>
    rw [DocTree.toJson, extract_nodes, extract_self_docFields,
      extract_find_children_docFields, extract_list_toJsonList cs]
    simp [DocTree.collect]
    rfl

/-- `extract_list` on the encoding of a forest collects exactly the
forest's depth-first collection, in order. -/
theorem extract_list_toJsonList (ts : DocForest) :
    extract_list ts.toJsonList = .ok (ts.collectF.map pairToJson) := by
  match ts with
  | .nil => rfl
  | .cons t rest =>
    rw [DocForest.toJsonList, extract_list, extract_nodes_toJson t,
      extract_list_toJsonList rest]
    simp [DocForest.collectF]
    rfl
end

/-- For every string prompt, `get_filtered_nodes` computes `filtered_ids`
of the files response — the prompt only feeds the constant per-node filter
condition — and performs exactly the one files fetch. -/
theorem get_filtered_nodes_str_eq (file_id : Json) (resp : HttpResp) (p : String) :
    get_filtered_nodes file_id resp (.str p) =
      (filtered_ids resp, [.fetchFile file_id]) := by
  unfold get_filtered_nodes filtered_ids
  refine Prod.ext ?_ rfl
  dsimp only
  split
  · rfl
  · split
    · split
      · rfl
      · rename_i nodes
        split
        · rfl
        · rename_i hne
          generalize (KEYWORDS.any fun word =>
            strContains (strToLower p) (strToLower word)) = kw

          cases kw <;> simp_all [List.isEmpty_iff, List.map_eq_nil_iff]
    · rfl

/-- `get_filtered_nodes` always performs exactly the one files fetch. -/
theorem get_filtered_nodes_calls (file_id : Json) (resp : HttpResp) (prompt : Json) :
    (get_filtered_nodes file_id resp prompt).2 = [.fetchFile file_id] := rfl

/-- `get_figma_image` always performs exactly the one image-URL fetch,
with the single node id it was given. -/
theorem get_figma_image_calls (file_id : Json) (resp : HttpResp) (node_id : Json) :
    (get_figma_image file_id resp node_id).2 = [.fetchImageUrl file_id node_id] := rfl

/-- A filename ending in `.png` is never the empty string. -/
theorem png_filename_not_empty (u : String) : (u ++ ".png").isEmpty = false := by
  rw [Bool.eq_false_iff]
  intro hE
  have h2 := (String.isEmpty_iff _).mp hE
  have h3 := congrArg String.data h2
  rw [show (u ++ ".png").data = u.data ++ (".png").data from rfl] at h3
  simp at h3

/-- What the download step can leave on disk: nothing, or (once the 200
response made it open the file) exactly the one UUID-named file under
`static/` holding the delivered chunks -- the whole body on success, a
partial body when the stream raised mid-download. -/
theorem download_writes_cases (ds : Nat) (chunks : List String) (rb : Bool)
    (u : String) (url : Json) :
    (download_and_save_image ds chunks rb u url).2.1 = [] ∨
    (ds = 200 ∧ (download_and_save_image ds chunks rb u url).2.1 =
      [(osPathJoin STATIC_DIR (u ++ ".png"), String.join chunks)]) := by
  cases url <;> simp only [download_and_save_image]
  all_goals repeat' split
  all_goals simp_all

/-- A saved filename is the drawn UUID followed by `.png`. -/
theorem download_some_fn (ds : Nat) (chunks : List String) (rb : Bool)
    (u : String) (url : Json) (fn : String)
    (h : (download_and_save_image ds chunks rb u url).1 = some fn) :
    fn = u ++ ".png" := by
  cases url <;> simp only [download_and_save_image] at h
  all_goals repeat' split at h
  all_goals simp_all

/-- A saved filename is never falsy. -/
theorem download_some_not_empty (ds : Nat) (chunks : List String) (rb : Bool)
    (u : String) (url : Json) (fn : String)
    (h : (download_and_save_image ds chunks rb u url).1 = some fn) :
    fn.isEmpty = false := by
  rw [download_some_fn ds chunks rb u url fn h]
  exact png_filename_not_empty u

/-- When a filename was saved, the stream completed and exactly one file
was written: all delivered chunks, directly under the static directory. -/
theorem download_some_writes (ds : Nat) (chunks : List String) (rb : Bool)
    (u : String) (url : Json) (fn : String)
    (h : (download_and_save_image ds chunks rb u url).1 = some fn) :
    (download_and_save_image ds chunks rb u url).2.1 =
      [(osPathJoin STATIC_DIR fn, String.join chunks)] := by
  cases url <;> simp only [download_and_save_image] at h ⊢
  all_goals repeat' split at h
  all_goals simp_all

/-- When a filename was saved, the one outbound call fetched the image
bytes from the given URL. -/
theorem download_some_calls (ds : Nat) (chunks : List String) (rb : Bool)
    (u : String) (url : Json) (fn : String)
    (h : (download_and_save_image ds chunks rb u url).1 = some fn) :
    (download_and_save_image ds chunks rb u url).2.2 = [.fetchImageBytes url] := by
  cases url <;> simp only [download_and_save_image] at h ⊢
  all_goals repeat' split at h
  all_goals simp_all [download_calls, Json.isStr]

/-- The calls of the download step are `download_calls` of its URL,
whatever the download status and stream behaviour. -/
theorem download_and_save_image_calls (ds : Nat) (chunks : List String) (rb : Bool)
    (u : String) (url : Json) :
    (download_and_save_image ds chunks rb u url).2.2 = download_calls url := by
  cases url <;> simp only [download_and_save_image]
  all_goals repeat' split
  all_goals simp

/-- The download step never makes a render-URL request. -/
theorem fetchImageUrl_not_mem_download_calls (url fid nid : Json) :
    ApiCall.fetchImageUrl fid nid ∉ download_calls url := by
  unfold download_calls
  split <;> simp

/-- The download step never makes a files fetch. -/
theorem fetchFile_not_mem_download_calls (url fid : Json) :
    ApiCall.fetchFile fid ∉ download_calls url := by
  unfold download_calls
  split <;> simp

/-- The download step never makes a style-list fetch. -/
theorem fetchStyles_not_mem_download_calls (url fid : Json) :
    ApiCall.fetchStyles fid ∉ download_calls url := by
  unfold download_calls
  split <;> simp

/-- The download step never reports the empty string as saved filename. -/
theorem download_ne_some_empty (ds : Nat) (chunks : List String) (rb : Bool)
    (u : String) (url : Json) :
    (download_and_save_image ds chunks rb u url).1 ≠ some "" := by
  intro h
  have h2 := download_some_not_empty ds chunks rb u url "" h
  exact absurd h2 (by decide)

/-- A filename is only saved when the download came back 200. -/
theorem download_some_status (ds : Nat) (chunks : List String) (rb : Bool)
    (u : String) (url : Json) (fn : String)
    (h : (download_and_save_image ds chunks rb u url).1 = some fn) :
    ds = 200 := by
  cases url <;> simp only [download_and_save_image] at h
  all_goals repeat' split at h
  all_goals simp_all

/-- A filename is only saved when the image URL was a string. -/
theorem download_some_url_isStr (ds : Nat) (chunks : List String) (rb : Bool)
    (u : String) (url : Json) (fn : String)
    (h : (download_and_save_image ds chunks rb u url).1 = some fn) :
    url.isStr = true := by
  cases url <;> first | rfl | simp_all [download_and_save_image]

/-- Joining a relative filename onto the static directory places it
directly (flat) under `static/`. -/
theorem osPathJoin_static (fn : String) (h : strStartsWith fn "/" = false) :
    osPathJoin STATIC_DIR fn = "static/" ++ fn := by
  unfold osPathJoin STATIC_DIR
  rw [h]
  rfl

/-- Appending `.png` to a filename that does not start with a slash keeps
it slash-free at the front. -/
theorem startsWithSlash_append_png (u : String) (h : strStartsWith u "/" = false) :
    strStartsWith (u ++ ".png") "/" = false := by
  unfold strStartsWith at *
  rw [show (u ++ ".png").toList = u.toList ++ (".png").toList from rfl]
  cases hu : u.toList with
  | nil => rfl
  | cons c cs =>
    rw [hu] at h
    simp [charsMatchAt] at h ⊢
    exact h

/-- A UUID filename with no slash stays slash-free after appending
`.png`. -/
theorem no_slash_append_png (u : String) (h : ¬ '/' ∈ u.toList) :
    ¬ '/' ∈ (u ++ ".png").toList := by
  rw [show (u ++ ".png").toList = u.toList ++ (".png").toList from rfl]
  intro hmem
  rcases List.mem_append.mp hmem with h1 | h1
  · exact h h1
  · simp at h1

/-- A string-prompt that is not the empty string is truthy. -/
theorem pyTruthy_str_of_ne (p : String) (hp : p ≠ "") :
    pyTruthy (.str p) = true := by
  simp only [pyTruthy, Bool.not_eq_true']
  rw [Bool.eq_false_iff]
  intro hh
  exact hp ((String.isEmpty_iff _).mp hh)

/-- The head the endpoint takes from the reordered list is a member of
the filtered list, whatever permutation the shuffle drew. -/
theorem reorder_head_mem (shuffle : List Json → List Json)
    (hsh : ∀ l, (shuffle l).Perm l) (l : List Json) (nid : Json)
    (h : (reorder_nodes_creatively shuffle l).head? = some nid) : nid ∈ l := by
  have hmem : nid ∈ (shuffle l).take 5 := by
    unfold reorder_nodes_creatively at h
    cases hl : (shuffle l).take 5 with
    | nil => rw [hl] at h; simp at h
    | cons x xs =>
      rw [hl] at h
      simp at h
      rw [← h]
      exact List.mem_cons_self _ _
  exact (hsh l).mem_iff.mp (List.take_subset _ _ hmem)

/-- When the filtered list is non-empty, the reorder step has a head, and
it is a member of the filtered list. -/
theorem reorder_head_exists (shuffle : List Json → List Json)
    (hsh : ∀ l, (shuffle l).Perm l) (l : List Json) (hne : l ≠ []) :
    ∃ nid, (reorder_nodes_creatively shuffle l).head? = some nid ∧ nid ∈ l := by
  cases hl : reorder_nodes_creatively shuffle l with
  | nil =>
    exfalso
    apply hne
    have hlen := congrArg List.length hl
    simp only [reorder_nodes_creatively, List.length_take, List.length_nil] at hlen
    rw [(hsh l).length_eq] at hlen
    rcases Nat.min_eq_zero_iff.mp hlen with h5 | h0
    · omega
    · exact List.length_eq_zero.mp h0
  | cons x xs =>
    exact ⟨x, rfl, reorder_head_mem shuffle hsh l x (by rw [hl]; rfl)⟩

/-- C2: for one fixed files response, `get_filtered_nodes` is the same for
any two prompt strings; and whenever extraction succeeds with a non-empty
node list, the returned list is exactly all extracted ids (the first
components — the recorded widths never enter the result). -/
theorem c2_prompt_and_width_invariance :
    (∀ (file_id : Json) (resp : HttpResp) (p q : String),
      get_filtered_nodes file_id resp (.str p) =
        get_filtered_nodes file_id resp (.str q)) ∧
    (∀ (file_id : Json) (resp : HttpResp) (p : String) (dataFields : JsonFields)
        (nodes : List (Json × Json)),
      resp.status = 200 →
      resp.body = .obj dataFields →
      extract_nodes ((dataFields.lookup "document").getD (.obj .nil)) = .ok nodes →
      nodes ≠ [] →
      (get_filtered_nodes file_id resp (.str p)).1 = some (nodes.map Prod.fst)) := by
  constructor
  · intro file_id resp p q
    rw [get_filtered_nodes_str_eq, get_filtered_nodes_str_eq]
  · intro file_id resp p dataFields nodes hst hbody hex hne
    rw [get_filtered_nodes_str_eq]
    unfold filtered_ids
    simp [hst, hbody, hex, List.isEmpty_iff, hne]

/-- C2 witness: on the concrete successful files response, any prompt
yields exactly the one extracted id `1:2` (its width 320 dropped). -/
theorem c2_witness :
    (get_filtered_nodes (.str FIGMA_FILE_KEY) okFilesResp (.str "hello")).1 =
      some ([((Json.str "1:2"), (Json.num 320))].map Prod.fst) :=
  c2_prompt_and_width_invariance.2 (.str FIGMA_FILE_KEY) okFilesResp "hello"
    (JsonFields.ofList [("document", okDocument)])
    [((Json.str "1:2"), (Json.num 320))]
    rfl rfl rfl (List.cons_ne_nil _ _)

/-- C5: node selection is a recursive depth-first traversal of the
document JSON tree — each node visited before its children, children in
document order — collecting exactly the identifiers of FRAME or COMPONENT
nodes, excluding id `0:0`, each paired with its bounding-box width
(defaulting to 0 when absent): on the JSON encoding of every well-formed
document tree, `extract_nodes` returns precisely the specification's
preorder collection. -/
theorem c5_extract_nodes_is_depth_first_collection (t : DocTree) :
    extract_nodes t.toJson = .ok (t.collect.map pairToJson) :=
  extract_nodes_toJson t

/-- C9: whatever permutation `random.shuffle` draws,
`reorder_nodes_creatively` returns `min 5 (length input)` elements, each
an element of the original input list. -/
theorem c9_reorder_take_five_of_members (shuffle : List Json → List Json)
    (node_list : List Json) (hsh : (shuffle node_list).Perm node_list) :
    (reorder_nodes_creatively shuffle node_list).length = min 5 node_list.length ∧
    ∀ x ∈ reorder_nodes_creatively shuffle node_list, x ∈ node_list := by
  constructor
  · simp [reorder_nodes_creatively, List.length_take, hsh.length_eq]
  · intro x hx
    exact hsh.mem_iff.mp (List.take_subset _ _ hx)

/-- C9 witness: with the identity permutation on a one-element list, the
reorder step returns that one element. -/
theorem c9_witness :
    (reorder_nodes_creatively (fun l => l) [Json.null]).length =
      min 5 ([Json.null] : List Json).length ∧
    ∀ x ∈ reorder_nodes_creatively (fun l => l) [Json.null],
      x ∈ ([Json.null] : List Json) :=
  c9_reorder_take_five_of_members (fun l => l) [Json.null] (List.Perm.refl _)

/-- C10: a request whose body is a JSON object whose prompt value is falsy
(the empty string, null, 0, an empty list — or absent altogether, read as
null) is rejected with HTTPException 400 `Prompt no recibido`, with no
upstream call made and no file written. -/
theorem c10_falsy_prompt_rejected_400 (env : Env) (bodyFields : JsonFields)
    (hbody : env.body = some (.obj bodyFields))
    (hprompt : pyTruthy ((bodyFields.lookup "prompt").getD .null) = false) :
    generate_wireframe env = (.httpError 400 "Prompt no recibido", [], []) := by
  simp [generate_wireframe, hbody, requestPrompt, hprompt]

/-- C10 witness: the empty-string prompt and the absent prompt are both
rejected with the same 400 and an empty call trace. -/
theorem c10_witness :
    generate_wireframe envEmptyPrompt =
      (.httpError 400 "Prompt no recibido", [], []) ∧
    generate_wireframe envNoPrompt =
      (.httpError 400 "Prompt no recibido", [], []) :=
  ⟨c10_falsy_prompt_rejected_400 envEmptyPrompt
      (JsonFields.ofList [("prompt", .str "")]) rfl rfl,
   c10_falsy_prompt_rejected_400 envNoPrompt (JsonFields.ofList []) rfl rfl⟩

/-- C6 fails as stated: a request whose 200 download stream raises
mid-body fails with HTTPException 500 yet leaves the partially written
`static/<uuid4>.png` behind, so a failing request can change the static
directory. -/
theorem c6_counterexample :
    (generate_wireframe envPartialDownload).1 =
      .httpError 500 "Error al guardar la imagen" ∧
    (generate_wireframe envPartialDownload).2.2 =
      [("static/123e4567-e89b-12d3-a456-426614174000.png", "PNGBYTES")] ∧
    ¬ (generate_wireframe envPartialDownload).2.2 = [] := by
  refine ⟨rfl, rfl, fun hcon => ?_⟩
  rw [show (generate_wireframe envPartialDownload).2.2 =
      [("static/123e4567-e89b-12d3-a456-426614174000.png", "PNGBYTES")] from rfl] at hcon
  simp at hcon

/-- C6 amended: the first failure aborts the request. When
`get_filtered_nodes` delivers `None` or an empty list, no render-URL
request and no download occur; when `get_figma_image` delivers no URL for
the chosen node, no download occurs and no file is written; a failing
request writes nothing to the static directory — except that a download
whose 200-status stream raises mid-body leaves the single partially
written `static/<uuid4>.png` behind; an HTTPException is raised and no
call kind is ever repeated (no retry and no recovery). -/
theorem c6_amended_first_failure_aborts (env : Env) (r : RunResult) (tr : List ApiCall)
    (ws : List (String × String)) (h : generate_wireframe env = (r, tr, ws)) :
    (((get_filtered_nodes (requestFileId env) env.filesResp (requestPrompt env)).1 = none ∨
      (get_filtered_nodes (requestFileId env) env.filesResp (requestPrompt env)).1 = some []) →
      (∀ fid nid, ApiCall.fetchImageUrl fid nid ∉ tr) ∧
      (∀ url, ApiCall.fetchImageBytes url ∉ tr)) ∧
    (∀ nid, ApiCall.fetchImageUrl (requestFileId env) nid ∈ tr →
      (get_figma_image (requestFileId env) env.imageResp nid).1 = none →
      (∀ url, ApiCall.fetchImageBytes url ∉ tr) ∧ ws = []) ∧
    (∀ s d, r = .httpError s d →
      ws = [] ∨
      (env.downloadStatus = 200 ∧
       ws = [(osPathJoin STATIC_DIR (env.uuid4 ++ ".png"),
              String.join env.downloadChunks)])) ∧
    (tr.map ApiCall.kind).Nodup := by
  unfold generate_wireframe at h
  dsimp only at h
  repeat' split at h
  all_goals
    simp only [Prod.mk.injEq] at h
    obtain ⟨hr, htr, hws⟩ := h
    subst hr
    subst htr
    subst hws
  all_goals
    refine ⟨fun hfil => ?_, fun nid hiu hgfi => ?_, fun s d hsd => ?_, ?_⟩
  all_goals
    simp_all [get_filtered_nodes_calls, get_figma_image_calls,
      download_and_save_image_calls,
      fetchImageUrl_not_mem_download_calls, download_ne_some_empty,
      String.isEmpty_iff, List.isEmpty_iff, ApiCall.kind, download_calls,
      apply_ite]
  all_goals
    first
      | exact download_writes_cases _ _ _ _ _
      | (split <;> simp_all)
      | simp_all

/-- On every request, the outbound calls made are an initial segment of the
fixed pipeline order: files fetch, then render-URL request for one node,
then image-bytes fetch. -/
theorem generate_wireframe_trace_shape (env : Env) (r : RunResult)
    (tr : List ApiCall) (ws : List (String × String))
    (h : generate_wireframe env = (r, tr, ws)) :
    tr = [] ∨ (∃ fid, tr = [.fetchFile fid]) ∨
    (∃ fid nid, tr = [.fetchFile fid, .fetchImageUrl fid nid]) ∨
    (∃ fid nid url, tr = [.fetchFile fid, .fetchImageUrl fid nid,
      .fetchImageBytes url]) := by
  unfold generate_wireframe at h
  dsimp only at h
  repeat' split at h
  all_goals
    simp only [Prod.mk.injEq] at h
    obtain ⟨hr, htr, hws⟩ := h
    subst htr
  all_goals
    simp_all [get_filtered_nodes_calls, get_figma_image_calls,
      download_and_save_image_calls, download_calls]
  all_goals
    first | (split <;> simp_all) | simp_all

/-- A successful run pins down the whole pipeline: the filtered list was
non-empty, a head node was chosen, its render URL was found and truthy and
a string, the download came back 200, the trace is exactly the three
outbound calls in order, and the one file written is the UUID-named png. -/
theorem generate_wireframe_success (env : Env) (r : RunResult)
    (tr : List ApiCall) (ws : List (String × String)) (info durl : String)
    (h : generate_wireframe env = (r, tr, ws)) (hr : r = .success info durl) :
    ∃ ids nid url,
      (get_filtered_nodes (requestFileId env) env.filesResp (requestPrompt env)).1 =
        some ids ∧
      ids ≠ [] ∧
      (reorder_nodes_creatively env.shuffle ids).head? = some nid ∧
      (get_figma_image (requestFileId env) env.imageResp nid).1 = some url ∧
      url.isStr = true ∧
      env.downloadStatus = 200 ∧
      tr = [.fetchFile (requestFileId env), .fetchImageUrl (requestFileId env) nid,
            .fetchImageBytes url] ∧
      ws = [(osPathJoin STATIC_DIR (env.uuid4 ++ ".png"),
             String.join env.downloadChunks)] ∧
      info = "Wireframe generado exitosamente" ∧
      durl = "https://webmasterpro.onrender.com/static/" ++ (env.uuid4 ++ ".png") := by
  subst hr
  unfold generate_wireframe at h
  dsimp only at h
  split at h
  · exact absurd h (by simp)
  · rename_i data
    split at h
    · rename_i bodyFields
      split at h
      · exact absurd h (by simp)
      · rename_i hpt
        split at h
        · exact absurd h (by simp)
        · rename_i node_id_list hfil
          split at h
          · exact absurd h (by simp)
          · rename_i hempty
            split at h
            · exact absurd h (by simp)
            · rename_i nid hhead
              split at h
              · exact absurd h (by simp)
              · rename_i url hurl
                split at h
                · exact absurd h (by simp)
                · rename_i hpu
                  split at h
                  · exact absurd h (by simp)
                  · rename_i fn hsav
                    split at h
                    · exact absurd h (by simp)
                    · rename_i hfe
                      simp only [Prod.mk.injEq, RunResult.success.injEq] at h
                      obtain ⟨⟨hinfo, hdurl⟩, htr, hws⟩ := h
                      have hfn := download_some_fn _ _ _ _ _ _ hsav
                      have hst := download_some_status _ _ _ _ _ _ hsav
                      have hisStr := download_some_url_isStr _ _ _ _ _ _ hsav
                      have hwr := download_some_writes _ _ _ _ _ _ hsav
                      have hcs := download_some_calls _ _ _ _ _ _ hsav
                      refine ⟨node_id_list, nid, url, hfil, ?_, hhead, hurl,
                        hisStr, hst, ?_, ?_, hinfo.symm, ?_⟩
                      · simpa [List.isEmpty_iff] using hempty
                      · rw [← htr]
                        simp [get_filtered_nodes_calls, get_figma_image_calls, hcs]
                      · rw [← hws, hwr, hfn]
                      · rw [← hdurl, hfn]
    · exact absurd h (by simp)


/-- C3 fails as stated: a missing prompt is rejected with status 400,
which is not a 5xx server error. -/
theorem c3_counterexample :
    (generate_wireframe envNoPrompt).1 = .httpError 400 "Prompt no recibido" ∧
    ¬ (500 ≤ 400 ∧ 400 ≤ 599) := by
  exact ⟨rfl, by omega⟩

/-- C3 amended: every run of the endpoint either succeeds or raises an
HTTPException whose status is 400 (missing prompt, failed files fetch, or
empty filtered node set) or 500 (failed image-URL fetch or download, or an
unexpected error). -/
theorem c3_amended_failures_become_400_or_500 (env : Env) :
    (∃ info durl, (generate_wireframe env).1 = .success info durl) ∨
    (∃ d, (generate_wireframe env).1 = .httpError 400 d) ∨
    (∃ d, (generate_wireframe env).1 = .httpError 500 d) := by
  unfold generate_wireframe
  dsimp only
  repeat'
    first
      | exact Or.inl ⟨_, _, rfl⟩
      | exact Or.inr (Or.inl ⟨_, rfl⟩)
      | exact Or.inr (Or.inr ⟨_, rfl⟩)
      | split

/-- C1 fails as stated: a document whose one FRAME node has the empty
string as id makes `get_filtered_nodes` return the empty-string
identifier, so the returned identifiers are not all non-empty strings. -/
theorem c1_counterexample :
    extract_nodes (Json.objOf [("id", .str ""), ("type", .str "FRAME")]) =
      .ok [(.str "", .num 0)] ∧
    (get_filtered_nodes (.str FIGMA_FILE_KEY) emptyIdFilesResp
      (.str "a landing page")).1 = some [.str ""] ∧
    ¬ (∀ x ∈ [Json.str ""], ∃ s : String, x = .str s ∧ s ≠ "") := by
  refine ⟨rfl, rfl, fun hall => ?_⟩
  obtain ⟨s, hs, hsne⟩ := hall (Json.str "") (List.mem_singleton.mpr rfl)
  injection hs with hinj
  exact hsne hinj.symm

/-- C1 amended: when the extraction pass finds at least one FRAME or
COMPONENT node (id other than `0:0`), `get_filtered_nodes` returns a
non-empty list of identifiers drawn from the extracted nodes (they need
not be non-empty strings), and the node id `generate_wireframe` passes to
`get_figma_image` is one of them. -/
theorem c1_amended_nonempty_ids_from_extraction (env : Env)
    (bodyFields dataFields : JsonFields) (p : String)
    (nodes : List (Json × Json))
    (hbody : env.body = some (.obj bodyFields))
    (hprompt : (bodyFields.lookup "prompt").getD .null = .str p)
    (hp : p ≠ "")
    (hst : env.filesResp.status = 200)
    (hfbody : env.filesResp.body = .obj dataFields)
    (hex : extract_nodes ((dataFields.lookup "document").getD (.obj .nil)) = .ok nodes)
    (hne : nodes ≠ [])
    (hsh : ∀ l, (env.shuffle l).Perm l) :
    ∃ ids, (get_filtered_nodes (requestFileId env) env.filesResp (.str p)).1 =
        some ids ∧
      ids ≠ [] ∧ (∀ x ∈ ids, x ∈ nodes.map Prod.fst) ∧
      ∃ nid, nid ∈ ids ∧
        ApiCall.fetchImageUrl (requestFileId env) nid ∈ (generate_wireframe env).2.1 := by
  have hprom : requestPrompt env = .str p := by
    simp [requestPrompt, hbody, hprompt]
  have hpt := pyTruthy_str_of_ne p hp
  have hids : (get_filtered_nodes (requestFileId env) env.filesResp (.str p)).1 =
      some (nodes.map Prod.fst) := by
    rw [get_filtered_nodes_str_eq]
    unfold filtered_ids
    simp [hst, hfbody, hex, List.isEmpty_iff, hne]
  have hne2 : nodes.map Prod.fst ≠ [] :=
    fun hmap => hne (List.map_eq_nil_iff.mp hmap)
  obtain ⟨nid, hhead, hmem⟩ :=
    reorder_head_exists env.shuffle hsh (nodes.map Prod.fst) hne2
  refine ⟨nodes.map Prod.fst, hids, hne2, fun x hx => hx, nid, hmem, ?_⟩
  unfold generate_wireframe
  dsimp only
  rw [hbody]
  simp only [hprom, hpt, Bool.not_true, Bool.false_eq_true, if_false, hids]
  simp only [List.isEmpty_iff, hne2, if_false, hhead]
  repeat' split
  all_goals
    simp_all [get_filtered_nodes_calls, get_figma_image_calls,
      download_and_save_image_calls]

/-- C1 witness: on the concrete successful environment the filtered list
is `1:2`, drawn from the one extracted node, and the render-URL request
carries it. -/
theorem c1_witness :
    ∃ ids, (get_filtered_nodes (requestFileId envOk) envOk.filesResp
        (.str "landing page")).1 = some ids ∧
      ids ≠ [] ∧
      (∀ x ∈ ids, x ∈ [((Json.str "1:2"), (Json.num 320))].map Prod.fst) ∧
      ∃ nid, nid ∈ ids ∧
        ApiCall.fetchImageUrl (requestFileId envOk) nid ∈ (generate_wireframe envOk).2.1 :=
  c1_amended_nonempty_ids_from_extraction envOk
    (JsonFields.ofList [("prompt", .str "landing page")])
    (JsonFields.ofList [("document", okDocument)])
    "landing page" [((Json.str "1:2"), (Json.num 320))]
    rfl rfl (by decide) rfl rfl rfl (List.cons_ne_nil _ _)
    (fun l => List.Perm.refl l)

/-- C4: on every request the outbound calls follow the fixed pipeline
order (an initial segment of files fetch, render-URL request, image-bytes
fetch), and a successful request runs all four steps: the filtered list is
computed, one node id from it is chosen, exactly that single id is sent to
the render-URL request, and the image is downloaded and written. -/
theorem c4_pipeline_fixed_order (env : Env) (r : RunResult) (tr : List ApiCall)
    (ws : List (String × String))
    (h : generate_wireframe env = (r, tr, ws))
    (hsh : ∀ l, (env.shuffle l).Perm l) :
    (tr = [] ∨ (∃ fid, tr = [.fetchFile fid]) ∨
     (∃ fid nid, tr = [.fetchFile fid, .fetchImageUrl fid nid]) ∨
     (∃ fid nid url, tr = [.fetchFile fid, .fetchImageUrl fid nid,
       .fetchImageBytes url])) ∧
    (∀ info durl, r = .success info durl →
      ∃ ids nid url,
        (get_filtered_nodes (requestFileId env) env.filesResp (requestPrompt env)).1 =
          some ids ∧
        nid ∈ ids ∧
        tr = [.fetchFile (requestFileId env), .fetchImageUrl (requestFileId env) nid,
              .fetchImageBytes url] ∧
        ws = [(osPathJoin STATIC_DIR (env.uuid4 ++ ".png"),
               String.join env.downloadChunks)]) := by
  constructor
  · exact generate_wireframe_trace_shape env r tr ws h
  · intro info durl hr
    obtain ⟨ids, nid, url, hfil, _, hhead, _, _, _, htr, hws2, _, _⟩ :=
      generate_wireframe_success env r tr ws info durl h hr
    exact ⟨ids, nid, url, hfil, reorder_head_mem env.shuffle hsh ids nid hhead,
      htr, hws2⟩

/-- C4 witness: the concrete successful request makes exactly the three
calls in pipeline order and renders the node drawn from the filtered
list. -/
theorem c4_witness :
    (([.fetchFile (.str FIGMA_FILE_KEY),
       .fetchImageUrl (.str FIGMA_FILE_KEY) (.str "1:2"),
       .fetchImageBytes (.str "https://figma-render.example/1-2.png")] : List ApiCall) = [] ∨
     (∃ fid, ([.fetchFile (.str FIGMA_FILE_KEY),
       .fetchImageUrl (.str FIGMA_FILE_KEY) (.str "1:2"),
       .fetchImageBytes (.str "https://figma-render.example/1-2.png")] : List ApiCall) =
        [.fetchFile fid]) ∨
     (∃ fid nid, ([.fetchFile (.str FIGMA_FILE_KEY),
       .fetchImageUrl (.str FIGMA_FILE_KEY) (.str "1:2"),
       .fetchImageBytes (.str "https://figma-render.example/1-2.png")] : List ApiCall) =
        [.fetchFile fid, .fetchImageUrl fid nid]) ∨
     (∃ fid nid url, ([.fetchFile (.str FIGMA_FILE_KEY),
       .fetchImageUrl (.str FIGMA_FILE_KEY) (.str "1:2"),
       .fetchImageBytes (.str "https://figma-render.example/1-2.png")] : List ApiCall) =
        [.fetchFile fid, .fetchImageUrl fid nid, .fetchImageBytes url])) ∧
    (∀ info durl,
      (RunResult.success "Wireframe generado exitosamente"
        "https://webmasterpro.onrender.com/static/123e4567-e89b-12d3-a456-426614174000.png") =
        .success info durl →
      ∃ ids nid url,
        (get_filtered_nodes (requestFileId envOk) envOk.filesResp
          (requestPrompt envOk)).1 = some ids ∧
        nid ∈ ids ∧
        ([.fetchFile (.str FIGMA_FILE_KEY),
          .fetchImageUrl (.str FIGMA_FILE_KEY) (.str "1:2"),
          .fetchImageBytes (.str "https://figma-render.example/1-2.png")] : List ApiCall) =
          [.fetchFile (requestFileId envOk), .fetchImageUrl (requestFileId envOk) nid,
           .fetchImageBytes url] ∧
        ([("static/123e4567-e89b-12d3-a456-426614174000.png", "PNGBYTES")] :
            List (String × String)) =
          [(osPathJoin STATIC_DIR (envOk.uuid4 ++ ".png"),
            String.join envOk.downloadChunks)]) :=
  c4_pipeline_fixed_order envOk _ _ _ rfl (fun l => List.Perm.refl l)

/-- C7 fails as stated: the concrete request succeeds, yet no style-list
fetch is among its outbound calls — this version never fetches the style
list. -/
theorem c7_counterexample :
    (∃ info durl, (generate_wireframe envOk).1 = .success info durl) ∧
    ∀ c ∈ (generate_wireframe envOk).2.1, ∀ fid, c ≠ ApiCall.fetchStyles fid := by
  constructor
  · exact ⟨_, _, rfl⟩
  · intro c hc fid
    rw [show (generate_wireframe envOk).2.1 =
      [.fetchFile (.str FIGMA_FILE_KEY), .fetchImageUrl (.str FIGMA_FILE_KEY) (.str "1:2"),
       .fetchImageBytes (.str "https://figma-render.example/1-2.png")] from rfl] at hc
    simp at hc
    rcases hc with h | h | h <;> subst h <;> simp

/-- C7 amended: in handling one successful request the service makes
outbound calls of exactly these kinds, in order: fetch document tree,
request rendered image URL for a node, fetch image bytes — and no
style-list fetch. -/
theorem c7_amended_three_call_kinds (env : Env) (r : RunResult)
    (tr : List ApiCall) (ws : List (String × String)) (info durl : String)
    (h : generate_wireframe env = (r, tr, ws)) (hr : r = .success info durl) :
    ∃ nid url,
      tr = [.fetchFile (requestFileId env), .fetchImageUrl (requestFileId env) nid,
            .fetchImageBytes url] ∧
      ∀ c ∈ tr, ∀ fid, c ≠ ApiCall.fetchStyles fid := by
  obtain ⟨ids, nid, url, _, _, _, _, _, _, htr, _, _, _⟩ :=
    generate_wireframe_success env r tr ws info durl h hr
  refine ⟨nid, url, htr, ?_⟩
  rw [htr]
  intro c hc fid
  simp at hc
  rcases hc with h2 | h2 | h2 <;> subst h2 <;> simp

/-- C7 witness: the concrete successful request's trace is exactly the
three calls, with no style-list fetch. -/
theorem c7_witness :
    ∃ nid url,
      ([.fetchFile (.str FIGMA_FILE_KEY),
        .fetchImageUrl (.str FIGMA_FILE_KEY) (.str "1:2"),
        .fetchImageBytes (.str "https://figma-render.example/1-2.png")] : List ApiCall) =
        [.fetchFile (requestFileId envOk), .fetchImageUrl (requestFileId envOk) nid,
         .fetchImageBytes url] ∧
      ∀ c ∈ ([.fetchFile (.str FIGMA_FILE_KEY),
        .fetchImageUrl (.str FIGMA_FILE_KEY) (.str "1:2"),
        .fetchImageBytes (.str "https://figma-render.example/1-2.png")] : List ApiCall),
        ∀ fid, c ≠ ApiCall.fetchStyles fid :=
  c7_amended_three_call_kinds envOk _ _ _ _ _ rfl rfl

/-- C8: on every successful request, the single file written is the
downloaded bytes placed flat in the static directory under the
UUID-derived name `<uuid4>.png`, and the response's download URL is
exactly the static host path followed by that same filename. -/
theorem c8_uuid_png_flat_static (env : Env) (r : RunResult) (tr : List ApiCall)
    (ws : List (String × String)) (info durl : String)
    (h : generate_wireframe env = (r, tr, ws)) (hr : r = .success info durl)
    (hs1 : strStartsWith env.uuid4 "/" = false)
    (hs2 : ¬ '/' ∈ env.uuid4.toList) :
    ws = [("static/" ++ (env.uuid4 ++ ".png"), String.join env.downloadChunks)] ∧
    durl = "https://webmasterpro.onrender.com/static/" ++ (env.uuid4 ++ ".png") ∧
    ¬ '/' ∈ (env.uuid4 ++ ".png").toList := by
  obtain ⟨ids, nid, url, _, _, _, _, _, _, _, hws2, _, hdurl⟩ :=
    generate_wireframe_success env r tr ws info durl h hr
  refine ⟨?_, hdurl, no_slash_append_png env.uuid4 hs2⟩
  rw [hws2, osPathJoin_static _ (startsWithSlash_append_png env.uuid4 hs1)]

/-- C8 witness: the concrete successful request writes exactly
`static/<uuid>.png` with the downloaded bytes and serves back the same
filename. -/
theorem c8_witness :
    ([("static/123e4567-e89b-12d3-a456-426614174000.png", "PNGBYTES")] :
        List (String × String)) =
      [("static/" ++ (envOk.uuid4 ++ ".png"), String.join envOk.downloadChunks)] ∧
    "https://webmasterpro.onrender.com/static/123e4567-e89b-12d3-a456-426614174000.png" =
      "https://webmasterpro.onrender.com/static/" ++ (envOk.uuid4 ++ ".png") ∧
    ¬ '/' ∈ (envOk.uuid4 ++ ".png").toList :=
  c8_uuid_png_flat_static envOk _ _ _ _ _ rfl rfl (by rfl) (by decide)

/-- C6 witness: a request whose document holds no valid node fails with
400 after only the files fetch, writing nothing. -/
theorem c6_witness :
    (((get_filtered_nodes (requestFileId envNoNodes) envNoNodes.filesResp
          (requestPrompt envNoNodes)).1 = none ∨
      (get_filtered_nodes (requestFileId envNoNodes) envNoNodes.filesResp
          (requestPrompt envNoNodes)).1 = some []) →
      (∀ fid nid, ApiCall.fetchImageUrl fid nid ∉
        [ApiCall.fetchFile (.str FIGMA_FILE_KEY)]) ∧
      (∀ url, ApiCall.fetchImageBytes url ∉
        [ApiCall.fetchFile (.str FIGMA_FILE_KEY)])) ∧
    (∀ nid, ApiCall.fetchImageUrl (requestFileId envNoNodes) nid ∈
        [ApiCall.fetchFile (.str FIGMA_FILE_KEY)] →
      (get_figma_image (requestFileId envNoNodes) envNoNodes.imageResp nid).1 = none →
      (∀ url, ApiCall.fetchImageBytes url ∉
        [ApiCall.fetchFile (.str FIGMA_FILE_KEY)]) ∧
      ([] : List (String × String)) = []) ∧
    (∀ s d, RunResult.httpError 400 "No se encontraron nodos válidos en Figma" =
        .httpError s d →
      ([] : List (String × String)) = [] ∨
      (envNoNodes.downloadStatus = 200 ∧
       ([] : List (String × String)) =
         [(osPathJoin STATIC_DIR (envNoNodes.uuid4 ++ ".png"),
           String.join envNoNodes.downloadChunks)])) ∧
    (([ApiCall.fetchFile (.str FIGMA_FILE_KEY)] : List ApiCall).map ApiCall.kind).Nodup :=
  c6_amended_first_failure_aborts envNoNodes
    (.httpError 400 "No se encontraron nodos válidos en Figma")
    [ApiCall.fetchFile (.str FIGMA_FILE_KEY)] [] rfl

end WebmasterPro
